import Mathlib

/-!
Verification development for the MS-PCQE model definition
(src/MS-PCQE_main/ResNet_mean_with_fast.py).

The file shallow-embeds the tensor-shape behaviour and the forward-pass
data flow of the `ResNet` quality-assessment network:

* shape-level semantics of every tensor operation the forward pass uses
  (`conv2dShape`, `blockShape`, `convGRUShape`, `vitShape`, `interpShape`,
  `linearShape`, ...), translated from the source;
* `forwardShape`: the shape semantics of `ResNet.forward`;
* `forwardSteps` / `forwardTrace`: the straight-line computation trace of
  `ResNet.forward`, recording every module application with its parameters
  and argument registers;
* `basicBlockInit` / `resnetInitBasic`: the construction-time validation of
  `BasicBlock.__init__` and `ResNet.__init__`;
* `loadPretrained`: the filtered partial loading of pretrained weights in
  `resnet18` / `resnet50`.

The `ConvGRU` module (convGRU.py) and the `SimpleViT` / `SimpleViT_double`
encoders (the repository's vit_pytorch variant) are imported by the source
but their files are not part of the repository snapshot; their shape
behaviour is modelled from the specification, as marked on the individual
definitions.
-/

namespace MSPCQE

/-- A tensor shape: the list of dimension sizes. -/
abbrev Shape := List Nat

/-- Number of elements of a tensor of the given shape. -/
def numel (s : Shape) : Nat := s.foldl (· * ·) 1

/-- Output spatial size of a 2d convolution / pooling along one axis
(PyTorch: floor((h + 2p - d(k-1) - 1) / s) + 1). -/
def convOut (h k st p d : Nat) : Nat := (h + 2 * p - (d * (k - 1) + 1)) / st + 1

/-- Shape semantics of `nn.Conv2d` with square kernel `k`, stride `st`,
padding `p`, dilation `d`: requires a 4d input with `inC` channels and a
non-negative output size. -/
def conv2dShape (inC outC k st p d : Nat) : Shape → Option Shape
  | [n, c, h, w] =>
      if c = inC ∧ d * (k - 1) + 1 ≤ h + 2 * p ∧ d * (k - 1) + 1 ≤ w + 2 * p then
        some [n, outC, convOut h k st p d, convOut w k st p d]
      else none
  | _ => none

/-- Shape semantics of `nn.BatchNorm2d(nf)`: checks the channel count. -/
def bnShape (nf : Nat) : Shape → Option Shape
  | [n, c, h, w] => if c = nf then some [n, c, h, w] else none
  | _ => none

/-- `nn.ReLU` preserves the shape. -/
def reluShape (s : Shape) : Option Shape := some s

/-- Shape semantics of `nn.MaxPool2d(kernel_size=k, stride=st, padding=p)`. -/
def maxpoolShape (k st p : Nat) : Shape → Option Shape
  | [n, c, h, w] =>
      if (k - 1) + 1 ≤ h + 2 * p ∧ (k - 1) + 1 ≤ w + 2 * p then
        some [n, c, convOut h k st p 1, convOut w k st p 1]
      else none
  | _ => none

/-- The two residual block variants of the source. -/
inductive BlockKind where
  | basic
  | bottleneck
deriving DecidableEq, Repr

/-- `expansion` class attribute: 1 for `BasicBlock`, 4 for `Bottleneck`. -/
def BlockKind.expansion : BlockKind → Nat
  | .basic => 1
  | .bottleneck => 4

/-- Static configuration of one residual block, as produced by
`ResNet._make_layer` (lines 414-436). -/
structure BlockCfg where
  kind : BlockKind
  inplanes : Nat
  planes : Nat
  stride : Nat
  dilation : Nat
  hasDown : Bool
  groups : Nat
  baseWidth : Nat
deriving DecidableEq, Repr

/-- Shape semantics of `BasicBlock.forward` (lines 78-94):
conv3x3(inplanes, planes, stride) + bn + relu, conv3x3(planes, planes) + bn,
optional 1x1-conv downsample of the identity, residual add (which requires
equal shapes), relu. -/
def basicBlockShape (cfg : BlockCfg) (s : Shape) : Option Shape := do
  let out ← conv2dShape cfg.inplanes cfg.planes 3 cfg.stride 1 1 s
  let out ← bnShape cfg.planes out
  let out ← reluShape out
  let out ← conv2dShape cfg.planes cfg.planes 3 1 1 1 out
  let out ← bnShape cfg.planes out
  let idt ← if cfg.hasDown then
      (conv2dShape cfg.inplanes (cfg.planes * 1) 1 cfg.stride 0 1 s).bind
        (bnShape (cfg.planes * 1))
    else some s
  if out = idt then some out else none

/-- Shape semantics of `Bottleneck.forward` (lines 118-138):
conv1x1(inplanes, width), conv3x3(width, width, stride, groups, dilation),
conv1x1(width, planes*4), optional downsample, residual add, with
width = planes * (base_width / 64) * groups. -/
def bottleneckShape (cfg : BlockCfg) (s : Shape) : Option Shape := do
  let width := cfg.planes * cfg.baseWidth / 64 * cfg.groups
  let out ← conv2dShape cfg.inplanes width 1 1 0 1 s
  let out ← bnShape width out
  let out ← reluShape out
  let out ← conv2dShape width width 3 cfg.stride cfg.dilation cfg.dilation out
  let out ← bnShape width out
  let out ← reluShape out
  let out ← conv2dShape width (cfg.planes * 4) 1 1 0 1 out
  let out ← bnShape (cfg.planes * 4) out
  let idt ← if cfg.hasDown then
      (conv2dShape cfg.inplanes (cfg.planes * 4) 1 cfg.stride 0 1 s).bind
        (bnShape (cfg.planes * 4))
    else some s
  if out = idt then some out else none

/-- Shape semantics of one residual block. -/
def blockShape (cfg : BlockCfg) (s : Shape) : Option Shape :=
  match cfg.kind with
  | .basic => basicBlockShape cfg s
  | .bottleneck => bottleneckShape cfg s

/-- Shape semantics of an `nn.Sequential` of residual blocks. -/
def layerShape (cfgs : List BlockCfg) (s : Shape) : Option Shape :=
  cfgs.foldl (fun acc cfg => acc.bind (blockShape cfg)) (some s)

/-- Mutable state of `ResNet.__init__` while building the four layers:
`self.inplanes` and `self.dilation`. -/
structure MkState where
  inplanes : Nat
  dilation : Nat
deriving DecidableEq, Repr

/-- `ResNet._make_layer(block, planes, blocks, stride, dilate)`
(lines 414-436): the first block takes the stride (set to 1 when dilating)
and a downsample when the stride or the channel count changes; the
remaining `blocks - 1` blocks are stride-1 with the updated `inplanes`. -/
def makeLayer (kind : BlockKind) (groups baseWidth : Nat)
    (planes blocks stride : Nat) (dilate : Bool) (st : MkState) :
    List BlockCfg × MkState :=
  let previousDilation := st.dilation
  let dilation := if dilate then st.dilation * stride else st.dilation
  let stride := if dilate then 1 else stride
  let hasDown := decide (stride ≠ 1 ∨ st.inplanes ≠ planes * kind.expansion)
  let first : BlockCfg :=
    ⟨kind, st.inplanes, planes, stride, previousDilation, hasDown, groups, baseWidth⟩
  let inpl := planes * kind.expansion
  let rest := List.replicate (blocks - 1)
    (⟨kind, inpl, planes, 1, dilation, false, groups, baseWidth⟩ : BlockCfg)
  (first :: rest, ⟨inpl, dilation⟩)

/-- The backbone structure of a constructed `ResNet`: the block
configurations of `self.layer1` .. `self.layer4`. -/
structure ResNetSh where
  layer1 : List BlockCfg
  layer2 : List BlockCfg
  layer3 : List BlockCfg
  layer4 : List BlockCfg
deriving DecidableEq, Repr

/-- Backbone layer construction of `ResNet.__init__` (lines 397-408):
`inplanes = 64`, strides 1, 2, 2, 2, dilate flags from
`replace_stride_with_dilation`. -/
def mkResNetSh (kind : BlockKind) (groups baseWidth : Nat)
    (l1 l2 l3 l4 : Nat) (d1 d2 d3 : Bool) : ResNetSh :=
  let st0 : MkState := ⟨64, 1⟩
  let r1 := makeLayer kind groups baseWidth 64 l1 1 false st0
  let r2 := makeLayer kind groups baseWidth 128 l2 2 d1 r1.2
  let r3 := makeLayer kind groups baseWidth 256 l3 2 d2 r2.2
  let r4 := makeLayer kind groups baseWidth 512 l4 2 d3 r3.2
  ⟨r1.1, r2.1, r3.1, r4.1⟩

/-- The backbone of `resnet18` (line 601): `ResNet(BasicBlock, [2,2,2,2])`
with the default `groups=1`, `width_per_group=64`,
`replace_stride_with_dilation=None`. -/
def resnet18Sh : ResNetSh := mkResNetSh .basic 1 64 2 2 2 2 false false false

/-- Stem and four stages of `ResNet.forward` for one stream
(lines 486-493): conv1 (7x7, stride 2, pad 3) + bn1 + relu + maxpool
(3x3, stride 2, pad 1), then layer1 .. layer4; returns the four stage
feature-map shapes. -/
def backboneShapes (net : ResNetSh) (s : Shape) :
    Option (Shape × Shape × Shape × Shape) := do
  let x ← conv2dShape 3 64 7 2 3 1 s
  let x ← bnShape 64 x
  let x ← reluShape x
  let x ← maxpoolShape 3 2 1 x
  let s1 ← layerShape net.layer1 x
  let s2 ← layerShape net.layer2 s1
  let s3 ← layerShape net.layer3 s2
  let s4 ← layerShape net.layer4 s3
  some (s1, s2, s3, s4)

/-- Configuration of one `ConvGRU` unit as passed in `ResNet.__init__`
(lines 164-226): `input_size` (square), `input_dim`, and the single
`hidden_dim`. -/
structure GruCfg where
  inputSize : Nat
  inputDim : Nat
  hiddenDim : Nat
deriving DecidableEq, Repr

/-- Modelled from the spec: the `ConvGRU` module of convGRU.py (imported at
line 10) is not under src/. Spec 4.2: a one-step convolutional
gated-recurrent update that treats one stream's feature map as the input and
the other stream's same-stage map as the driving hidden state, and outputs
the updated hidden state with the same spatial size; the hidden channel
count is the configured `hidden_dim`, the input must carry the configured
`input_dim` channels, and a spatial mismatch between the two maps is a fatal
precondition violation. The sequence dimension added by `unsqueeze(1)` and
removed by `squeeze(1)` around every call in `forward` is folded into this
definition. -/
def convGRUShape (cfg : GruCfg) (inp hid : Shape) : Option Shape :=
  match inp, hid with
  | [n, c, h, w], [n2, c2, h2, w2] =>
      if n = n2 ∧ c = cfg.inputDim ∧ c2 = c ∧ h = h2 ∧ w = w2 then
        some [n, cfg.hiddenDim, h, w]
      else none
  | _, _ => none

/-- `self.convgru1` configuration (lines 164-178). -/
def convgru1Cfg : GruCfg := ⟨128, 64, 32⟩

/-- `self.convgru2` configuration (lines 180-194). -/
def convgru2Cfg : GruCfg := ⟨64, 128, 32⟩

/-- `self.convgru3` configuration (lines 196-210). -/
def convgru3Cfg : GruCfg := ⟨32, 256, 32⟩

/-- `self.convgru4` configuration (lines 212-226). -/
def convgru4Cfg : GruCfg := ⟨16, 512, 32⟩

/-- Configuration of one `SimpleViT` / `SimpleViT_double` head, as passed in
`ResNet.__init__` (lines 232-357). -/
structure ViTCfg where
  imageSize : Nat
  patchSize : Nat
  numClasses : Nat
  dim : Nat
  depth : Nat
  heads : Nat
  mlpDim : Nat
  channels : Nat
deriving DecidableEq, Repr

/-- Number of patches the head splits a feature map of its configured image
size into. -/
def numPatches (cfg : ViTCfg) : Nat :=
  (cfg.imageSize / cfg.patchSize) * (cfg.imageSize / cfg.patchSize)

/-- Modelled from the spec: `SimpleViT` (the repository's vit_pytorch
variant, imported at line 6, not under src/). Spec 4.3/4.4: a patch-based
attention encoder that divides the (n, c, h, w) feature map into
patch-size-square patches (so the spatial dims must be positive and
divisible by the patch size), requires the configured channel count, and
produces a fixed `num_classes`-dimensional embedding per batch item. -/
def vitShape (cfg : ViTCfg) : Shape → Option Shape
  | [n, c, h, w] =>
      if c = cfg.channels ∧ 0 < h ∧ 0 < w ∧
          h % cfg.patchSize = 0 ∧ w % cfg.patchSize = 0 then
        some [n, cfg.numClasses]
      else none
  | _ => none

/-- Modelled from the spec: `SimpleViT_double` (imported at line 7, not
under src/), the mask-conditioned variant of `SimpleViT`: it takes the mask
as a second conditioning input which must match the feature map's shape
(the mask is resized to the feature map's spatial size and broadcast to its
channel count before the call). -/
def vitDoubleShape (cfg : ViTCfg) (s mask : Shape) : Option Shape :=
  if mask = s then vitShape cfg s else none

/-- `self.conv_z1_ref1` configuration (lines 232-243). -/
def conv_z1_ref1Cfg : ViTCfg := ⟨128, 16, 32, 64, 2, 2, 16, 32⟩

/-- `self.conv_z1_ref2` configuration (lines 247-258). -/
def conv_z1_ref2Cfg : ViTCfg := ⟨64, 8, 32, 64, 2, 2, 16, 32⟩

/-- `self.conv_z1_ref3` configuration (lines 261-272). -/
def conv_z1_ref3Cfg : ViTCfg := ⟨32, 4, 32, 64, 2, 2, 16, 32⟩

/-- `self.conv_z1_ref4` configuration (lines 275-286). -/
def conv_z1_ref4Cfg : ViTCfg := ⟨16, 2, 32, 64, 2, 2, 16, 32⟩

/-- `self.conv_z_ref1` configuration (lines 303-314). -/
def conv_z_ref1Cfg : ViTCfg := ⟨128, 16, 32, 64, 2, 2, 16, 32⟩

/-- `self.conv_z_ref2` configuration (lines 318-329). -/
def conv_z_ref2Cfg : ViTCfg := ⟨64, 8, 32, 64, 2, 2, 16, 32⟩

/-- `self.conv_z_ref3` configuration (lines 332-343). -/
def conv_z_ref3Cfg : ViTCfg := ⟨32, 4, 32, 64, 2, 2, 16, 32⟩

/-- `self.conv_z_ref4` configuration (lines 346-357). -/
def conv_z_ref4Cfg : ViTCfg := ⟨16, 2, 32, 64, 2, 2, 16, 32⟩

/-- `x.view(-1, c, h, w)` (lines 481-484): the element count must be
divisible by `c * h * w`; the leading dimension is inferred. -/
def viewFlatShape (c h w : Nat) (s : Shape) : Option Shape :=
  if 0 < c * h * w ∧ numel s % (c * h * w) = 0 then
    some [numel s / (c * h * w), c, h, w]
  else none

/-- `torch.nn.functional.interpolate(mask, scale_factor = 1/denom)` for the
denominators 4, 8, 16, 32 used in `forward`: each spatial dimension becomes
`floor(h / denom)` (the scale factors 1/4 .. 1/32 are exactly
representable, so the float floor is the natural-number division). -/
def interpShape (denom : Nat) : Shape → Option Shape
  | [n, c, h, w] => if 0 < denom then some [n, c, h / denom, w / denom] else none
  | _ => none

/-- `t.repeat(1, r, 1, 1)` where `r = ref.size(1)`: the channel dimension is
tiled `r` times. -/
def repeatChShape (s ref : Shape) : Option Shape :=
  match s, ref with
  | [n, c, h, w], _ :: cr :: _ => some [n, c * cr, h, w]
  | _, _ => none

/-- `torch.cat((a, b), dim=1)` on two 2d tensors. -/
def catDim1 (a b : Shape) : Option Shape :=
  match a, b with
  | [n, d1], [n2, d2] => if n = n2 then some [n, d1 + d2] else none
  | _, _ => none

/-- `torch.cat(ts, dim=1)` on a tuple of 2d tensors (line 568). -/
def catList (l : List Shape) : Option Shape :=
  match l with
  | [] => none
  | x :: xs => xs.foldl (fun acc y => acc.bind (fun a => catDim1 a y)) (some x)

/-- Shape semantics of `nn.Linear(inF, outF)` on a 2d input. -/
def linearShape (inF outF : Nat) : Shape → Option Shape
  | [n, d] => if d = inF then some [n, outF] else none
  | _ => none

/-- `nn.Dropout` preserves the shape. -/
def dropoutShape (s : Shape) : Option Shape := some s

/-- `y.view(b, f)` (line 574): the element count must be exactly `b * f`. -/
def view2Shape (b f : Nat) (s : Shape) : Option Shape :=
  if numel s = b * f then some [b, f] else none

/-- `torch.mean(y, dim=1)` on a 2d tensor (line 575). -/
def meanDim1Shape : Shape → Option Shape
  | [b, _] => some [b]
  | _ => none

/-- Shape semantics of `ResNet.forward` (lines 469-577). Both video streams
are viewed with the dimensions of the "10" stream and both masks with the
dimensions of the "10" mask (`x_size` / `x_mask_size`); each stream runs
through the shared backbone; per stage the two streams are cross-fused by
the stage's ConvGRU in both directions, the stage's mask is interpolated by
1/4, 1/8, 1/16, 1/32 and tiled to the fused map's channel count, the
mask-conditioned (`conv_z_refk`) and mask-free (`conv_z1_refk`) heads are
applied and concatenated; the eight 64-dim stage embeddings are
concatenated, regressed 512 -> 128 -> 1 (`quality_img_ref1` with its
dropout, then `quality_img_ref2`), reshaped to (batch, frames) and averaged
over frames. An unhandled `mode_idx` falls through the single `if` branch
and yields no value. -/
def stageEmbedShape (gcfg : GruCfg) (vd vs : ViTCfg) (denom : Nat)
    (sA sB mA : Shape) : Option Shape := do
  let gA ← convGRUShape gcfg sA sB
  let mk ← interpShape denom mA
  let mk ← repeatChShape mk gA
  let zr ← vitDoubleShape vd gA mk
  let z1 ← vitShape vs gA
  catDim1 zr z1

/-- One stage of `ResNet.forward` for both fusion directions: the "10"
embedding (stream 10 fused conditioned on 05, heads on it with the 10 mask)
and the "05" embedding (swapped). -/
def stagePairShape (gcfg : GruCfg) (vd vs : ViTCfg) (denom : Nat)
    (sT sF mT mF : Shape) : Option (Shape × Shape) := do
  let zt ← stageEmbedShape gcfg vd vs denom sT sF mT
  let zf ← stageEmbedShape gcfg vd vs denom sF sT mF
  some (zt, zf)

/-- The quality-regression tail of `ResNet.forward` (lines 568-577):
concatenate the eight stage embeddings, apply `quality_img_ref1`
(`Linear(32*16, 32*4)` + dropout) and `quality_img_ref2` (`Linear(128, 1)`),
view as (batch, frames), mean over frames. -/
def regressShape (b f : Nat) (zs : List Shape) : Option Shape := do
  let y ← catList zs
  let y ← linearShape (32 * 16) (32 * 4) y
  let y ← dropoutShape y
  let y ← linearShape 128 1 y
  let y ← view2Shape b f y
  meanDim1Shape y

def forwardShape (net : ResNetSh) (v10 v05 m10 m05 : Shape) (modeIdx : Int) :
    Option Shape :=
  if modeIdx = 0 ∨ modeIdx = 1 then
    match v10, m10 with
    | [b, f, c, h, w], [_, _, cm, hm, wm] => do
        let x10 ← viewFlatShape c h w v10
        let x10m ← viewFlatShape cm hm wm m10
        let x05 ← viewFlatShape c h w v05
        let x05m ← viewFlatShape cm hm wm m05
        let (s1t, s2t, s3t, s4t) ← backboneShapes net x10
        let (s1f, s2f, s3f, s4f) ← backboneShapes net x05
        let (zc1t, zc1f) ←
          stagePairShape convgru1Cfg conv_z_ref1Cfg conv_z1_ref1Cfg 4 s1t s1f x10m x05m
        let (zc2t, zc2f) ←
          stagePairShape convgru2Cfg conv_z_ref2Cfg conv_z1_ref2Cfg 8 s2t s2f x10m x05m
        let (zc3t, zc3f) ←
          stagePairShape convgru3Cfg conv_z_ref3Cfg conv_z1_ref3Cfg 16 s3t s3f x10m x05m
        let (zc4t, zc4f) ←
          stagePairShape convgru4Cfg conv_z_ref4Cfg conv_z1_ref4Cfg 32 s4t s4f x10m x05m
        regressShape b f [zc1t, zc1f, zc2t, zc2f, zc3t, zc3f, zc4t, zc4f]
    | _, _ => none
  else none

/-- The modules a constructed `ResNet` instance owns (lines 164-408), with
their learned parameters abstracted to a payload type `α`. Field order and
names follow the attribute assignments in `ResNet.__init__`. -/
structure Model (α : Type) where
  convgru1 : α
  convgru2 : α
  convgru3 : α
  convgru4 : α
  conv_z1_ref1 : α
  conv_z1_ref2 : α
  conv_z1_ref3 : α
  conv_z1_ref4 : α
  avgpool_blind : α
  quality_blind1 : α
  quality_blind2 : α
  conv_z_ref1 : α
  conv_z_ref2 : α
  conv_z_ref3 : α
  conv_z_ref4 : α
  quality_img_ref1 : α
  quality_img_ref2 : α
  avgpool : α
  conv1 : α
  bn1 : α
  layer1 : α
  layer2 : α
  layer3 : α
  layer4 : α
deriving DecidableEq, Repr

/-- One assignment in the straight-line computation of `ResNet.forward`:
the right-hand side applied, with module parameters and the indices of the
earlier assignments used as arguments. `inputV i` is the i-th argument of
`forward`; numeric first components name which of the four per-stage
modules is applied. -/
inductive Step (α : Type) where
  | inputV : Nat → Step α
  | viewFlat : Nat → Step α
  | convApp : α → Nat → Step α
  | bnApp : α → Nat → Step α
  | reluApp : Nat → Step α
  | maxpoolApp : Nat → Step α
  | layerApp : Nat → α → Nat → Step α
  | gruApp : Nat → α → Nat → Nat → Step α
  | interpApp : Nat → Nat → Step α
  | repeatApp : Nat → Nat → Step α
  | vitDoubleApp : Nat → α → Nat → Nat → Step α
  | vitSingleApp : Nat → α → Nat → Step α
  | catApp : List Nat → Step α
  | linApp : α → Nat → Step α
  | dropApp : Nat → Step α
  | viewBF : Nat → Step α
  | meanApp : Nat → Step α
deriving DecidableEq, Repr

set_option maxHeartbeats 2000000 in
/-- The computation trace of the handled branch of `ResNet.forward`
(lines 471-577), one `Step` per tensor produced, in source order. Step `i`
of the list is assignment number `i`; the four inputs occupy 0-3.
Annotations name the Python local each step produces. -/
def forwardSteps {α : Type} (m : Model α) : List (Step α) :=
  [ .inputV 0,                                 -- 0: frames_dir_10_video
    .inputV 1,                                 -- 1: frames_dir_05_video
    .inputV 2,                                 -- 2: frames_dir_10_video_mask
    .inputV 3,                                 -- 3: frames_dir_05_video_mask
    .viewFlat 0,                               -- 4: x_10
    .viewFlat 2,                               -- 5: x_10_mask
    .viewFlat 1,                               -- 6: x_05
    .viewFlat 3,                               -- 7: x_05_mask
    .convApp m.conv1 4,                        -- 8
    .bnApp m.bn1 8,                            -- 9
    .reluApp 9,                                -- 10
    .maxpoolApp 10,                            -- 11
    .layerApp 1 m.layer1 11,                   -- 12: x_image1_10
    .layerApp 2 m.layer2 12,                   -- 13: x_image2_10
    .layerApp 3 m.layer3 13,                   -- 14: x_image3_10
    .layerApp 4 m.layer4 14,                   -- 15: x_image4_10
    .convApp m.conv1 6,                        -- 16
    .bnApp m.bn1 16,                           -- 17
    .reluApp 17,                               -- 18
    .maxpoolApp 18,                            -- 19
    .layerApp 1 m.layer1 19,                   -- 20: x_image1_05
    .layerApp 2 m.layer2 20,                   -- 21: x_image2_05
    .layerApp 3 m.layer3 21,                   -- 22: x_image3_05
    .layerApp 4 m.layer4 22,                   -- 23: x_image4_05
    .gruApp 1 m.convgru1 12 20,                -- 24: x_image1_10_gru
    .gruApp 1 m.convgru1 20 12,                -- 25: x_image1_05_gru
    .interpApp 4 5,                            -- 26: mask_scaled
    .repeatApp 26 24,                          -- 27
    .vitDoubleApp 1 m.conv_z_ref1 24 27,       -- 28: z_ref1_10
    .vitSingleApp 1 m.conv_z1_ref1 24,         -- 29: z1_ref1_10
    .catApp [28, 29],                          -- 30: z_ref1_10 (cat)
    .interpApp 4 7,                            -- 31: mask_scaled
    .repeatApp 31 25,                          -- 32
    .vitDoubleApp 1 m.conv_z_ref1 25 32,       -- 33: z_ref1_05
    .vitSingleApp 1 m.conv_z1_ref1 25,         -- 34: z1_ref1_05
    .catApp [33, 34],                          -- 35: z_ref1_05 (cat)
    .gruApp 2 m.convgru2 13 21,                -- 36: x_image2_10_gru
    .gruApp 2 m.convgru2 21 13,                -- 37: x_image2_05_gru
    .interpApp 8 5,                            -- 38: mask_scaled
    .repeatApp 38 36,                          -- 39
    .vitDoubleApp 2 m.conv_z_ref2 36 39,       -- 40: z_ref2_10
    .vitSingleApp 2 m.conv_z1_ref2 36,         -- 41: z1_ref2_10
    .catApp [40, 41],                          -- 42: z_ref2_10 (cat)
    .interpApp 8 7,                            -- 43: mask_scaled
    .repeatApp 43 37,                          -- 44
    .vitDoubleApp 2 m.conv_z_ref2 37 44,       -- 45: z_ref2_05
    .vitSingleApp 2 m.conv_z1_ref2 37,         -- 46: z1_ref2_05
    .catApp [45, 46],                          -- 47: z_ref2_05 (cat)
    .gruApp 3 m.convgru3 14 22,                -- 48: x_image3_10_gru
    .gruApp 3 m.convgru3 22 14,                -- 49: x_image3_05_gru
    .interpApp 16 5,                           -- 50: mask_scaled
    .repeatApp 50 48,                          -- 51
    .vitDoubleApp 3 m.conv_z_ref3 48 51,       -- 52: z_ref3_10
    .vitSingleApp 3 m.conv_z1_ref3 48,         -- 53: z1_ref3_10
    .catApp [52, 53],                          -- 54: z_ref3_10 (cat)
    .interpApp 16 7,                           -- 55: mask_scaled
    .repeatApp 55 49,                          -- 56
    .vitDoubleApp 3 m.conv_z_ref3 49 56,       -- 57: z_ref3_05
    .vitSingleApp 3 m.conv_z1_ref3 49,         -- 58: z1_ref3_05
    .catApp [57, 58],                          -- 59: z_ref3_05 (cat)
    .gruApp 4 m.convgru4 15 23,                -- 60: x_image4_10_gru
    .gruApp 4 m.convgru4 23 15,                -- 61: x_image4_05_gru
    .interpApp 32 5,                           -- 62: mask_scaled
    .repeatApp 62 60,                          -- 63
    .vitDoubleApp 4 m.conv_z_ref4 60 63,       -- 64: z_ref4_10
    .vitSingleApp 4 m.conv_z1_ref4 60,         -- 65: z1_ref4_10
    .catApp [64, 65],                          -- 66: z_ref4_10 (cat)
    .interpApp 32 7,                           -- 67: mask_scaled
    .repeatApp 67 61,                          -- 68
    .vitDoubleApp 4 m.conv_z_ref4 61 68,       -- 69: z_ref4_05
    .vitSingleApp 4 m.conv_z1_ref4 61,         -- 70: z1_ref4_05
    .catApp [69, 70],                          -- 71: z_ref4_05 (cat)
    .catApp [30, 35, 42, 47, 54, 59, 66, 71],  -- 72: y_mid_avg
    .linApp m.quality_img_ref1 72,             -- 73: y_mid_avg
    .dropApp 73,                               -- 74
    .linApp m.quality_img_ref2 74,             -- 75: y_mid_avg
    .viewBF 75,                                -- 76: y_mid_avg
    .meanApp 76 ]                              -- 77: y_mid_blind

/-- `ResNet.forward` at the trace level: the single handled branch
`mode_idx == 0 or mode_idx == 1` (line 471) produces the trace and the
index of the returned value; any other selector produces nothing. -/
def forwardTrace {α : Type} (m : Model α) (modeIdx : Int) :
    Option (List (Step α) × Nat) :=
  if modeIdx = 0 ∨ modeIdx = 1 then some (forwardSteps m, 77) else none

/-- The ConvGRU invocations of a trace, in order: which of the four gates,
its parameters, the input-argument index, the hidden-argument index. -/
def gruCalls {α : Type} (p : List (Step α)) : List (Nat × α × Nat × Nat) :=
  p.filterMap (fun s =>
    match s with
    | .gruApp k w a b => some (k, w, a, b)
    | _ => none)

/-- The Python exceptions the constructors raise. -/
inductive PyErr where
  | valueErr : String → PyErr
  | notImplementedErr : String → PyErr
deriving DecidableEq, Repr

/-- `True` when the computation raised. -/
def raised {β : Type} (e : Except PyErr β) : Bool :=
  match e with
  | .error _ => true
  | .ok _ => false

/-- `BasicBlock.__init__` (lines 60-76): raises `ValueError` when
`groups != 1 or base_width != 64`, `NotImplementedError` when
`dilation > 1`, and otherwise builds the block. -/
def basicBlockInit (inplanes planes stride : Nat) (hasDown : Bool)
    (groups baseWidth dilation : Nat) : Except PyErr BlockCfg :=
  if groups ≠ 1 ∨ baseWidth ≠ 64 then
    .error (.valueErr "BasicBlock only supports groups=1 and base_width=64")
  else if 1 < dilation then
    .error (.notImplementedErr "Dilation > 1 not supported in BasicBlock")
  else
    .ok ⟨.basic, inplanes, planes, stride, dilation, hasDown, groups, baseWidth⟩

/-- `ResNet._make_layer` with `block = BasicBlock`, propagating the
construction-time exceptions of `BasicBlock.__init__`: the first block is
built with `previous_dilation`, the remaining `blocks - 1` with the updated
`self.dilation`. -/
def makeLayerChecked (groups baseWidth : Nat) (planes blocks stride : Nat)
    (dilate : Bool) (st : MkState) : Except PyErr (List BlockCfg × MkState) := do
  let previousDilation := st.dilation
  let dilation := if dilate then st.dilation * stride else st.dilation
  let stride := if dilate then 1 else stride
  let hasDown := decide (stride ≠ 1 ∨ st.inplanes ≠ planes * BlockKind.basic.expansion)
  let first ← basicBlockInit st.inplanes planes stride hasDown groups baseWidth
    previousDilation
  let inpl := planes * BlockKind.basic.expansion
  let rest ← (List.range (blocks - 1)).mapM
    (fun _ => basicBlockInit inpl planes 1 false groups baseWidth dilation)
  pure (first :: rest, ⟨inpl, dilation⟩)

/-- `ResNet.__init__` with `block = BasicBlock` at build time
(lines 143-159 and 397-408): validate `replace_stride_with_dilation`
(`None` defaults to three `False` flags, any other length raises
`ValueError`), then build the four layers, propagating the exceptions of
`BasicBlock.__init__`. -/
def resnetInitBasic (groups baseWidth : Nat) (l1 l2 l3 l4 : Nat)
    (rswd : Option (List Bool)) : Except PyErr ResNetSh := do
  match rswd.getD [false, false, false] with
  | [d1, d2, d3] => do
      let r1 ← makeLayerChecked groups baseWidth 64 l1 1 false ⟨64, 1⟩
      let r2 ← makeLayerChecked groups baseWidth 128 l2 2 d1 r1.2
      let r3 ← makeLayerChecked groups baseWidth 256 l3 2 d2 r2.2
      let r4 ← makeLayerChecked groups baseWidth 512 l4 2 d3 r3.2
      pure ⟨r1.1, r2.1, r3.1, r4.1⟩
  | _ =>
      .error (.valueErr "replace_stride_with_dilation should be None or a 3-element tuple")

/-- Association-list lookup, the order-respecting model of Python
`dict[k]` / `k in dict` for a state dict. -/
def lookup {V : Type} : List (String × V) → String → Option V
  | [], _ => none
  | p :: rest, k => if p.1 = k then some p.2 else lookup rest k

/-- The dict comprehension of `resnet18` (line 606):
`{k: v for k, v in pre_train_model.items() if k in model_dict}`. -/
def filterByKeys {V : Type} (pre modelDict : List (String × V)) :
    List (String × V) :=
  pre.filter (fun p => (lookup modelDict p.1).isSome)

/-- `True` when `sub` occurs inside `s` (Python `sub in s`). -/
def strHasSub (s sub : String) : Bool := (s.splitOn sub).length ≠ 1

/-- The dict comprehension of `resnet50` (line 650):
`{k: v for k, v in pre_train_model.items() if k in model_dict and not
('branch_' in k)}`. -/
def filterByKeysR50 {V : Type} (pre modelDict : List (String × V)) :
    List (String × V) :=
  pre.filter (fun p => (lookup modelDict p.1).isSome && !(strHasSub p.1 "branch_"))

/-- The entry rewriter of `dict.update`: an existing entry takes the value
of the update when its key occurs there. -/
def updEntry {V : Type} (upd : List (String × V)) (p : String × V) : String × V :=
  match lookup upd p.1 with
  | some v => (p.1, v)
  | none => p

/-- Python `dict.update`: existing keys get the new value, keys only in the
update are appended. -/
def dictUpdate {V : Type} (d upd : List (String × V)) : List (String × V) :=
  d.map (updEntry upd) ++ upd.filter (fun p => (lookup d p.1).isNone)

/-- The pretrained-load of `resnet18` (lines 602-608): filter the
downloaded mapping to the keys of the model's state dict, update the state
dict with it, and load the result (a strict `load_state_dict` of a dict
with exactly the model's keys, which cannot raise); the resulting parameter
assignment is the updated dict. -/
def loadPretrained {V : Type} (modelDict pre : List (String × V)) :
    List (String × V) :=
  dictUpdate modelDict (filterByKeys pre modelDict)

/-- The pretrained-load of `resnet50` (lines 644-652), which additionally
drops keys containing "branch_". -/
def loadPretrainedR50 {V : Type} (modelDict pre : List (String × V)) :
    List (String × V) :=
  dictUpdate modelDict (filterByKeysR50 pre modelDict)

/-! Arithmetic of the convolution strides. -/

lemma convOut_7_2_3 (m : Nat) (hm : 0 < m) : convOut (2 * m) 7 2 3 1 = m := by
  unfold convOut; omega

lemma convOut_3_2_1 (m : Nat) (hm : 0 < m) : convOut (2 * m) 3 2 1 1 = m := by
  unfold convOut; omega

lemma convOut_1_2_0 (m : Nat) (hm : 0 < m) : convOut (2 * m) 1 2 0 1 = m := by
  unfold convOut; omega

lemma convOut_3_1_1 (h : Nat) (hh : 0 < h) : convOut h 3 1 1 1 = h := by
  unfold convOut; omega

lemma conv2dShape_stem (n h w a b : Nat) (hh : h = 2 * a) (hw : w = 2 * b)
    (ha : 0 < a) (hb : 0 < b) :
    conv2dShape 3 64 7 2 3 1 [n, 3, h, w] = some [n, 64, a, b] := by
  subst hh hw
  simp only [conv2dShape]
  rw [if_pos ⟨by trivial, by omega, by omega⟩, convOut_7_2_3 a ha, convOut_7_2_3 b hb]

lemma maxpoolShape_321 (n c h w a b : Nat) (hh : h = 2 * a) (hw : w = 2 * b)
    (ha : 0 < a) (hb : 0 < b) :
    maxpoolShape 3 2 1 [n, c, h, w] = some [n, c, a, b] := by
  subst hh hw
  simp only [maxpoolShape]
  rw [if_pos ⟨by omega, by omega⟩, convOut_3_2_1 a ha, convOut_3_2_1 b hb]

lemma bnShape_ok (c n h w : Nat) : bnShape c [n, c, h, w] = some [n, c, h, w] := by
  simp [bnShape]

lemma conv2dShape_3_s1 (inC outC n h w : Nat) (hh : 0 < h) (hw : 0 < w) :
    conv2dShape inC outC 3 1 1 1 [n, inC, h, w] = some [n, outC, h, w] := by
  simp only [conv2dShape]
  rw [if_pos ⟨by trivial, by omega, by omega⟩, convOut_3_1_1 h hh, convOut_3_1_1 w hw]

lemma conv2dShape_1_s2 (inC outC n h w a b : Nat) (hh : h = 2 * a)
    (hw : w = 2 * b) (ha : 0 < a) (hb : 0 < b) :
    conv2dShape inC outC 1 2 0 1 [n, inC, h, w] = some [n, outC, a, b] := by
  subst hh hw
  simp only [conv2dShape]
  rw [if_pos ⟨by trivial, by omega, by omega⟩, convOut_1_2_0 a ha, convOut_1_2_0 b hb]

lemma conv2dShape_3_s2 (inC outC n h w a b : Nat) (hh : h = 2 * a)
    (hw : w = 2 * b) (ha : 0 < a) (hb : 0 < b) :
    conv2dShape inC outC 3 2 1 1 [n, inC, h, w] = some [n, outC, a, b] := by
  subst hh hw
  simp only [conv2dShape]
  rw [if_pos ⟨by trivial, by omega, by omega⟩, convOut_3_2_1 a ha, convOut_3_2_1 b hb]

/-! Shape behaviour of the residual blocks of `resnet18`. -/

lemma blockShape_basic_id (p n h w : Nat) (hh : 0 < h) (hw : 0 < w) :
    blockShape ⟨.basic, p, p, 1, 1, false, 1, 64⟩ [n, p, h, w] =
      some [n, p, h, w] := by
  simp only [blockShape, basicBlockShape, Option.bind_eq_bind']
  rw [conv2dShape_3_s1 p p n h w hh hw]
  simp only [Option.some_bind', bnShape_ok, reluShape]
  rw [conv2dShape_3_s1 p p n h w hh hw]
  simp [bnShape_ok]

lemma blockShape_basic_down (cIn p n h w a b : Nat) (hh : h = 2 * a)
    (hw : w = 2 * b) (ha : 0 < a) (hb : 0 < b) :
    blockShape ⟨.basic, cIn, p, 2, 1, true, 1, 64⟩ [n, cIn, h, w] =
      some [n, p, a, b] := by
  simp only [blockShape, basicBlockShape, Option.bind_eq_bind']
  rw [conv2dShape_3_s2 cIn p n h w a b hh hw ha hb]
  simp only [Option.some_bind', bnShape_ok, reluShape]
  rw [conv2dShape_3_s1 p p n a b ha hb]
  simp only [Option.some_bind', bnShape_ok, Nat.mul_one]
  rw [conv2dShape_1_s2 cIn p n h w a b hh hw ha hb]
  simp [bnShape_ok]

/-- The concrete block structure of the `resnet18` backbone. -/
lemma resnet18Sh_eq :
    resnet18Sh =
      ⟨[⟨.basic, 64, 64, 1, 1, false, 1, 64⟩, ⟨.basic, 64, 64, 1, 1, false, 1, 64⟩],
       [⟨.basic, 64, 128, 2, 1, true, 1, 64⟩, ⟨.basic, 128, 128, 1, 1, false, 1, 64⟩],
       [⟨.basic, 128, 256, 2, 1, true, 1, 64⟩, ⟨.basic, 256, 256, 1, 1, false, 1, 64⟩],
       [⟨.basic, 256, 512, 2, 1, true, 1, 64⟩, ⟨.basic, 512, 512, 1, 1, false, 1, 64⟩]⟩ := by
  rfl

/-- Stage feature-map shapes of the `resnet18` backbone on a
`32 k` by `32 j` input: channels 64, 128, 256, 512 at spatial sizes
`8 k`, `4 k`, `2 k`, `k`. -/
lemma backboneShapes_resnet18 (n k j : Nat) (hk : 0 < k) (hj : 0 < j) :
    backboneShapes resnet18Sh [n, 3, 32 * k, 32 * j] =
      some ([n, 64, 8 * k, 8 * j], [n, 128, 4 * k, 4 * j],
            [n, 256, 2 * k, 2 * j], [n, 512, k, j]) := by
  rw [resnet18Sh_eq]
  simp only [backboneShapes, layerShape, List.foldl, Option.bind_eq_bind']
  rw [conv2dShape_stem n _ _ (16 * k) (16 * j) (by ring) (by ring) (by omega) (by omega)]
  simp only [Option.some_bind', bnShape_ok, reluShape]
  rw [maxpoolShape_321 n 64 _ _ (8 * k) (8 * j) (by ring) (by ring) (by omega) (by omega)]
  simp only [Option.some_bind']
  rw [blockShape_basic_id 64 n (8 * k) (8 * j) (by omega) (by omega)]
  simp only [Option.some_bind']
  rw [blockShape_basic_id 64 n (8 * k) (8 * j) (by omega) (by omega)]
  simp only [Option.some_bind']
  rw [blockShape_basic_down 64 128 n _ _ (4 * k) (4 * j) (by ring) (by ring) (by omega) (by omega)]
  simp only [Option.some_bind']
  rw [blockShape_basic_id 128 n (4 * k) (4 * j) (by omega) (by omega)]
  simp only [Option.some_bind']
  rw [blockShape_basic_down 128 256 n _ _ (2 * k) (2 * j) (by ring) (by ring) (by omega) (by omega)]
  simp only [Option.some_bind']
  rw [blockShape_basic_id 256 n (2 * k) (2 * j) (by omega) (by omega)]
  simp only [Option.some_bind']
  rw [blockShape_basic_down 256 512 n _ _ k j (by ring) (by ring) hk hj]
  simp only [Option.some_bind']
  rw [blockShape_basic_id 512 n k j hk hj]
  simp only [Option.some_bind']

/-! The per-stage fusion-and-encoding pipeline and the regression tail. -/

lemma viewFlatShape_ok (c h w b f : Nat) (hc : 0 < c) (hh : 0 < h) (hw : 0 < w) :
    viewFlatShape c h w [b, f, c, h, w] = some [b * f, c, h, w] := by
  have hpos : 0 < c * h * w := by positivity
  have h1 : numel [b, f, c, h, w] = b * f * (c * h * w) := by
    simp only [numel, List.foldl]; ring
  simp only [viewFlatShape, h1]
  rw [if_pos ⟨hpos, Nat.mul_mod_left _ _⟩, Nat.mul_div_cancel _ hpos]

lemma convGRUShape_ok (gcfg : GruCfg) (n c a b : Nat) (hc : gcfg.inputDim = c) :
    convGRUShape gcfg [n, c, a, b] [n, c, a, b] = some [n, gcfg.hiddenDim, a, b] := by
  simp [convGRUShape, hc]

lemma interpShape_ok (denom n c h w : Nat) (hd : 0 < denom) :
    interpShape denom [n, c, h, w] = some [n, c, h / denom, w / denom] := by
  simp [interpShape, hd]

lemma vitShape_ok (cfg : ViTCfg) (n a b : Nat) (hc : cfg.channels = 32)
    (ha : 0 < a) (hb : 0 < b)
    (hpa : a % cfg.patchSize = 0) (hpb : b % cfg.patchSize = 0) :
    vitShape cfg [n, 32, a, b] = some [n, cfg.numClasses] := by
  simp [vitShape, hc, ha, hb, hpa, hpb]

lemma stageEmbedShape_ok (gcfg : GruCfg) (vd vs : ViTCfg)
    (denom n c a b A B : Nat)
    (hc : gcfg.inputDim = c) (hhid : gcfg.hiddenDim = 32)
    (hvdc : vd.channels = 32) (hvsc : vs.channels = 32)
    (hvdn : vd.numClasses = 32) (hvsn : vs.numClasses = 32)
    (hA : A / denom = a) (hB : B / denom = b) (hd : 0 < denom)
    (ha : 0 < a) (hb : 0 < b)
    (hpa : a % vd.patchSize = 0) (hpb : b % vd.patchSize = 0)
    (hqa : a % vs.patchSize = 0) (hqb : b % vs.patchSize = 0) :
    stageEmbedShape gcfg vd vs denom [n, c, a, b] [n, c, a, b] [n, 1, A, B] =
      some [n, 64] := by
  simp only [stageEmbedShape, Option.bind_eq_bind']
  rw [convGRUShape_ok gcfg n c a b hc, hhid]
  simp only [Option.some_bind']
  rw [interpShape_ok denom n 1 A B hd, hA, hB]
  simp only [Option.some_bind', repeatChShape, Nat.one_mul]
  simp only [vitDoubleShape]
  rw [if_pos trivial]
  rw [vitShape_ok vd n a b hvdc ha hb hpa hpb, hvdn]
  simp only [Option.some_bind']
  rw [vitShape_ok vs n a b hvsc ha hb hqa hqb, hvsn]
  simp [catDim1]

lemma stagePairShape_ok (gcfg : GruCfg) (vd vs : ViTCfg)
    (denom n c a b A B : Nat)
    (hc : gcfg.inputDim = c) (hhid : gcfg.hiddenDim = 32)
    (hvdc : vd.channels = 32) (hvsc : vs.channels = 32)
    (hvdn : vd.numClasses = 32) (hvsn : vs.numClasses = 32)
    (hA : A / denom = a) (hB : B / denom = b) (hd : 0 < denom)
    (ha : 0 < a) (hb : 0 < b)
    (hpa : a % vd.patchSize = 0) (hpb : b % vd.patchSize = 0)
    (hqa : a % vs.patchSize = 0) (hqb : b % vs.patchSize = 0) :
    stagePairShape gcfg vd vs denom [n, c, a, b] [n, c, a, b]
      [n, 1, A, B] [n, 1, A, B] = some ([n, 64], [n, 64]) := by
  simp only [stagePairShape, Option.bind_eq_bind']
  rw [stageEmbedShape_ok gcfg vd vs denom n c a b A B hc hhid hvdc hvsc hvdn hvsn
    hA hB hd ha hb hpa hpb hqa hqb]
  simp only [Option.some_bind']

lemma catList_eight (n : Nat) :
    catList [[n, 64], [n, 64], [n, 64], [n, 64], [n, 64], [n, 64], [n, 64], [n, 64]] =
      some [n, 512] := by
  simp [catList, catDim1, List.foldl]

lemma regressShape_ok (b f : Nat) :
    regressShape b f
      [[b * f, 64], [b * f, 64], [b * f, 64], [b * f, 64],
       [b * f, 64], [b * f, 64], [b * f, 64], [b * f, 64]] = some [b] := by
  simp only [regressShape, Option.bind_eq_bind']
  rw [catList_eight]
  simp [linearShape, dropoutShape, view2Shape, meanDim1Shape, numel]

/-! Claim theorems. -/

/-- C1: For every valid input (both stream clips with matching
single-channel masks, spatial size a positive multiple of 64 so that every
stage aligns with its patch size) and mode selector 0 or 1, the forward
pass concatenates the eight per-stage embeddings (four stages, two streams,
each 64-dim from a 32-dim mask-conditioned plus a 32-dim mask-free
embedding) into a 512-dim vector, projects it through the two linear layers
512 -> 128 -> 1 to a per-(batch, frame) scalar, reshapes to
(batch, frames), and averages over the frame dimension, returning exactly
one scalar per batch element (output shape (batch,)). -/
theorem forward_one_scalar_per_batch (b f k j : Nat) (modeIdx : Int)
    (hk : 0 < k) (hj : 0 < j) (hm : modeIdx = 0 ∨ modeIdx = 1) :
    forwardShape resnet18Sh [b, f, 3, 64 * k, 64 * j] [b, f, 3, 64 * k, 64 * j]
        [b, f, 1, 64 * k, 64 * j] [b, f, 1, 64 * k, 64 * j] modeIdx = some [b] ∧
    catList (List.replicate 8 [b * f, 64]) = some [b * f, 512] ∧
    linearShape (32 * 16) (32 * 4) [b * f, 512] = some [b * f, 128] ∧
    linearShape 128 1 [b * f, 128] = some [b * f, 1] ∧
    view2Shape b f [b * f, 1] = some [b, f] ∧
    meanDim1Shape [b, f] = some [b] := by
  refine ⟨?_, ?_, ?_, ?_, ?_, ?_⟩
  · simp only [forwardShape]
    rw [if_pos hm]
    simp only [Option.bind_eq_bind']
    rw [viewFlatShape_ok 3 (64 * k) (64 * j) b f (by omega) (by omega) (by omega)]
    simp only [Option.some_bind']
    rw [viewFlatShape_ok 1 (64 * k) (64 * j) b f (by omega) (by omega) (by omega)]
    simp only [Option.some_bind']
    have e1 : (64 : Nat) * k = 32 * (2 * k) := by ring
    have e2 : (64 : Nat) * j = 32 * (2 * j) := by ring
    rw [e1, e2]
    rw [backboneShapes_resnet18 (b * f) (2 * k) (2 * j) (by omega) (by omega)]
    simp only [Option.some_bind']
    rw [stagePairShape_ok convgru1Cfg conv_z_ref1Cfg conv_z1_ref1Cfg 4 (b * f) 64
      (8 * (2 * k)) (8 * (2 * j)) (32 * (2 * k)) (32 * (2 * j)) rfl rfl rfl rfl rfl rfl
      (by omega) (by omega) (by omega) (by omega) (by omega)
      (show 8 * (2 * k) % 16 = 0 by omega) (show 8 * (2 * j) % 16 = 0 by omega)
      (show 8 * (2 * k) % 16 = 0 by omega) (show 8 * (2 * j) % 16 = 0 by omega)]
    simp only [Option.some_bind']
    rw [stagePairShape_ok convgru2Cfg conv_z_ref2Cfg conv_z1_ref2Cfg 8 (b * f) 128
      (4 * (2 * k)) (4 * (2 * j)) (32 * (2 * k)) (32 * (2 * j)) rfl rfl rfl rfl rfl rfl
      (by omega) (by omega) (by omega) (by omega) (by omega)
      (show 4 * (2 * k) % 8 = 0 by omega) (show 4 * (2 * j) % 8 = 0 by omega)
      (show 4 * (2 * k) % 8 = 0 by omega) (show 4 * (2 * j) % 8 = 0 by omega)]
    simp only [Option.some_bind']
    rw [stagePairShape_ok convgru3Cfg conv_z_ref3Cfg conv_z1_ref3Cfg 16 (b * f) 256
      (2 * (2 * k)) (2 * (2 * j)) (32 * (2 * k)) (32 * (2 * j)) rfl rfl rfl rfl rfl rfl
      (by omega) (by omega) (by omega) (by omega) (by omega)
      (show 2 * (2 * k) % 4 = 0 by omega) (show 2 * (2 * j) % 4 = 0 by omega)
      (show 2 * (2 * k) % 4 = 0 by omega) (show 2 * (2 * j) % 4 = 0 by omega)]
    simp only [Option.some_bind']
    rw [stagePairShape_ok convgru4Cfg conv_z_ref4Cfg conv_z1_ref4Cfg 32 (b * f) 512
      (2 * k) (2 * j) (32 * (2 * k)) (32 * (2 * j)) rfl rfl rfl rfl rfl rfl
      (by omega) (by omega) (by omega) (by omega) (by omega)
      (show 2 * k % 2 = 0 by omega) (show 2 * j % 2 = 0 by omega)
      (show 2 * k % 2 = 0 by omega) (show 2 * j % 2 = 0 by omega)]
    simp only [Option.some_bind']
    exact regressShape_ok b f
  · exact catList_eight (b * f)
  · simp [linearShape]
  · simp [linearShape]
  · simp [view2Shape, numel]
  · rfl

/-- Witness for C1: the spec's end-to-end configuration, a batch of 1 with
4 frames at 448 x 448 (448 = 64 * 7), mode 0, yields output shape (1,). -/
theorem forward_one_scalar_per_batch_witness :
    0 < 7 ∧ ((0 : Int) = 0 ∨ (0 : Int) = 1) ∧
      (forwardShape resnet18Sh [1, 4, 3, 64 * 7, 64 * 7] [1, 4, 3, 64 * 7, 64 * 7]
        [1, 4, 1, 64 * 7, 64 * 7] [1, 4, 1, 64 * 7, 64 * 7] 0 = some [1]) :=
  ⟨by decide, Or.inl rfl,
    (forward_one_scalar_per_batch 1 4 7 7 0 (by decide) (by decide) (Or.inl rfl)).1⟩

/-- C2: For every valid input frame batch (spatial size a positive multiple
of 32), the four backbone stages produce feature maps whose spatial size is
exactly 1/4, 1/8, 1/16, 1/32 of the input frame resolution, and the forward
pass resizes each stream's mask by exactly the matching scale factors
1/4, 1/8, 1/16, 1/32 (steps 26/38/50/62 on the "10" mask, variable 5, and
steps 31/43/55/67 on the "05" mask, variable 7) before feeding it to the
stage's mask-conditioned head, so the resized mask matches the stage's
spatial size. -/
theorem backbone_stage_sizes_match_mask_scales (n k j : Nat)
    (hk : 0 < k) (hj : 0 < j) :
    backboneShapes resnet18Sh [n, 3, 32 * k, 32 * j] =
      some ([n, 64, 32 * k / 4, 32 * j / 4], [n, 128, 32 * k / 8, 32 * j / 8],
            [n, 256, 32 * k / 16, 32 * j / 16], [n, 512, 32 * k / 32, 32 * j / 32]) ∧
    interpShape 4 [n, 1, 32 * k, 32 * j] = some [n, 1, 32 * k / 4, 32 * j / 4] ∧
    interpShape 8 [n, 1, 32 * k, 32 * j] = some [n, 1, 32 * k / 8, 32 * j / 8] ∧
    interpShape 16 [n, 1, 32 * k, 32 * j] = some [n, 1, 32 * k / 16, 32 * j / 16] ∧
    interpShape 32 [n, 1, 32 * k, 32 * j] = some [n, 1, 32 * k / 32, 32 * j / 32] ∧
    (∀ (α : Type) (m : Model α),
      (forwardSteps m).get? 26 = some (.interpApp 4 5) ∧
      (forwardSteps m).get? 38 = some (.interpApp 8 5) ∧
      (forwardSteps m).get? 50 = some (.interpApp 16 5) ∧
      (forwardSteps m).get? 62 = some (.interpApp 32 5) ∧
      (forwardSteps m).get? 31 = some (.interpApp 4 7) ∧
      (forwardSteps m).get? 43 = some (.interpApp 8 7) ∧
      (forwardSteps m).get? 55 = some (.interpApp 16 7) ∧
      (forwardSteps m).get? 67 = some (.interpApp 32 7)) := by
  refine ⟨?_, ?_, ?_, ?_, ?_, ?_⟩
  · rw [show 32 * k / 4 = 8 * k by omega, show 32 * j / 4 = 8 * j by omega,
      show 32 * k / 8 = 4 * k by omega, show 32 * j / 8 = 4 * j by omega,
      show 32 * k / 16 = 2 * k by omega, show 32 * j / 16 = 2 * j by omega,
      show 32 * k / 32 = k by omega, show 32 * j / 32 = j by omega]
    exact backboneShapes_resnet18 n k j hk hj
  · exact interpShape_ok 4 n 1 (32 * k) (32 * j) (by omega)
  · exact interpShape_ok 8 n 1 (32 * k) (32 * j) (by omega)
  · exact interpShape_ok 16 n 1 (32 * k) (32 * j) (by omega)
  · exact interpShape_ok 32 n 1 (32 * k) (32 * j) (by omega)
  · intro α m
    exact ⟨rfl, rfl, rfl, rfl, rfl, rfl, rfl, rfl⟩

/-- Witness for C2 at the 448 x 448 resolution (448 = 32 * 14): stage
sizes 112, 56, 28, 14 and matching mask sizes. -/
theorem backbone_stage_sizes_witness :
    0 < 14 ∧
      backboneShapes resnet18Sh [2, 3, 32 * 14, 32 * 14] =
        some ([2, 64, 32 * 14 / 4, 32 * 14 / 4], [2, 128, 32 * 14 / 8, 32 * 14 / 8],
              [2, 256, 32 * 14 / 16, 32 * 14 / 16], [2, 512, 32 * 14 / 32, 32 * 14 / 32]) :=
  ⟨by decide, (backbone_stage_sizes_match_mask_scales 2 14 14 (by decide) (by decide)).1⟩

/-- A concrete parameter assignment used by the witnesses: every module of
the model holds a distinct payload. -/
def natModel : Model Nat :=
  ⟨0, 1, 2, 3, 4, 5, 6, 7, 8, 9, 10, 11, 12, 13, 14, 15, 16, 17, 18, 19, 20, 21, 22, 23⟩

/-- C4: For every input, calling `forward` with a mode selector other than
0 or 1 falls through the single handled branch and returns no defined value
(`None`) without performing any computation: neither a computation trace
nor an output shape is produced. -/
theorem unhandled_mode_returns_none (α : Type) (m : Model α) (net : ResNetSh)
    (v10 v05 m10 m05 : Shape) (modeIdx : Int)
    (h0 : modeIdx ≠ 0) (h1 : modeIdx ≠ 1) :
    forwardTrace m modeIdx = none ∧
    forwardShape net v10 v05 m10 m05 modeIdx = none := by
  have hcond : ¬(modeIdx = 0 ∨ modeIdx = 1) := by tauto
  constructor
  · simp only [forwardTrace]
    rw [if_neg hcond]
  · simp only [forwardShape]
    rw [if_neg hcond]

/-- Witness for C4 at mode selector 2. -/
theorem unhandled_mode_returns_none_witness :
    ((2 : Int) ≠ 0) ∧ ((2 : Int) ≠ 1) ∧
      (forwardTrace natModel 2 = none ∧
       forwardShape resnet18Sh [1, 4, 3, 448, 448] [1, 4, 3, 448, 448]
         [1, 4, 1, 448, 448] [1, 4, 1, 448, 448] 2 = none) :=
  ⟨by decide, by decide,
    unhandled_mode_returns_none Nat natModel resnet18Sh [1, 4, 3, 448, 448]
      [1, 4, 3, 448, 448] [1, 4, 1, 448, 448] [1, 4, 1, 448, 448] 2
      (by decide) (by decide)⟩

/-- C6 counterexample: at the stage-1 input feature map shape
(1, 64, 128, 128), the fusion gate's output shape is (1, 32, 128, 128) —
the hidden dimension 32 replaces the input's 64 channels — so the gated map
does not have the same shape as the stage's input feature map. -/
theorem gru_gate_shape_counterexample :
    convGRUShape convgru1Cfg [1, 64, 128, 128] [1, 64, 128, 128] =
        some [1, 32, 128, 128] ∧
    convGRUShape convgru1Cfg [1, 64, 128, 128] [1, 64, 128, 128] ≠
        some [1, 64, 128, 128] := by
  decide

/-- C6 (amended): for each of the four backbone stages, the cross-stream
recurrent fusion gate produces a gated feature map with the same spatial
size (height and width) and batch dimension as the stage's input feature
map, but with the configured hidden dimension of 32 channels in place of
the stage's channel count. -/
theorem gru_gate_spatial_preserved_32_channels (n h w : Nat) :
    convGRUShape convgru1Cfg [n, 64, h, w] [n, 64, h, w] = some [n, 32, h, w] ∧
    convGRUShape convgru2Cfg [n, 128, h, w] [n, 128, h, w] = some [n, 32, h, w] ∧
    convGRUShape convgru3Cfg [n, 256, h, w] [n, 256, h, w] = some [n, 32, h, w] ∧
    convGRUShape convgru4Cfg [n, 512, h, w] [n, 512, h, w] = some [n, 32, h, w] :=
  ⟨convGRUShape_ok convgru1Cfg n 64 h w rfl, convGRUShape_ok convgru2Cfg n 128 h w rfl,
   convGRUShape_ok convgru3Cfg n 256 h w rfl, convGRUShape_ok convgru4Cfg n 512 h w rfl⟩

/-- C7: In every forward pass with a handled mode selector, the per-stage
fusion gate is invoked exactly twice per stage — once per fusion direction —
with the two streams' same-stage feature maps supplied in swapped argument
order (stream 10 conditioned on stream 05 first, then stream 05 conditioned
on stream 10). Variables 12-15 are the four stage maps of the "10" stream
(produced from input 0 through the backbone chain 4, 8-11) and 20-23 those
of the "05" stream (from input 1 through 6, 16-19). -/
theorem gru_invoked_twice_per_stage_swapped (α : Type) (m : Model α)
    (modeIdx : Int) (hm : modeIdx = 0 ∨ modeIdx = 1) :
    ∃ prog out, forwardTrace m modeIdx = some (prog, out) ∧
      gruCalls prog =
        [(1, m.convgru1, 12, 20), (1, m.convgru1, 20, 12),
         (2, m.convgru2, 13, 21), (2, m.convgru2, 21, 13),
         (3, m.convgru3, 14, 22), (3, m.convgru3, 22, 14),
         (4, m.convgru4, 15, 23), (4, m.convgru4, 23, 15)] ∧
      prog.get? 4 = some (.viewFlat 0) ∧
      prog.get? 8 = some (.convApp m.conv1 4) ∧
      prog.get? 9 = some (.bnApp m.bn1 8) ∧
      prog.get? 10 = some (.reluApp 9) ∧
      prog.get? 11 = some (.maxpoolApp 10) ∧
      prog.get? 12 = some (.layerApp 1 m.layer1 11) ∧
      prog.get? 13 = some (.layerApp 2 m.layer2 12) ∧
      prog.get? 14 = some (.layerApp 3 m.layer3 13) ∧
      prog.get? 15 = some (.layerApp 4 m.layer4 14) ∧
      prog.get? 6 = some (.viewFlat 1) ∧
      prog.get? 16 = some (.convApp m.conv1 6) ∧
      prog.get? 17 = some (.bnApp m.bn1 16) ∧
      prog.get? 18 = some (.reluApp 17) ∧
      prog.get? 19 = some (.maxpoolApp 18) ∧
      prog.get? 20 = some (.layerApp 1 m.layer1 19) ∧
      prog.get? 21 = some (.layerApp 2 m.layer2 20) ∧
      prog.get? 22 = some (.layerApp 3 m.layer3 21) ∧
      prog.get? 23 = some (.layerApp 4 m.layer4 22) := by
  refine ⟨forwardSteps m, 77, ?_, rfl, rfl, rfl, rfl, rfl, rfl, rfl, rfl, rfl,
    rfl, rfl, rfl, rfl, rfl, rfl, rfl, rfl, rfl, rfl⟩
  simp only [forwardTrace]
  rw [if_pos hm]

/-- Witness for C7 with a concrete parameter assignment at mode 0. -/
theorem gru_invoked_twice_per_stage_swapped_witness :
    ((0 : Int) = 0 ∨ (0 : Int) = 1) ∧
      (∃ prog out, forwardTrace natModel 0 = some (prog, out) ∧
        gruCalls prog =
          [(1, natModel.convgru1, 12, 20), (1, natModel.convgru1, 20, 12),
           (2, natModel.convgru2, 13, 21), (2, natModel.convgru2, 21, 13),
           (3, natModel.convgru3, 14, 22), (3, natModel.convgru3, 22, 14),
           (4, natModel.convgru4, 15, 23), (4, natModel.convgru4, 23, 15)] ∧
        prog.get? 4 = some (.viewFlat 0) ∧
        prog.get? 8 = some (.convApp natModel.conv1 4) ∧
        prog.get? 9 = some (.bnApp natModel.bn1 8) ∧
        prog.get? 10 = some (.reluApp 9) ∧
        prog.get? 11 = some (.maxpoolApp 10) ∧
        prog.get? 12 = some (.layerApp 1 natModel.layer1 11) ∧
        prog.get? 13 = some (.layerApp 2 natModel.layer2 12) ∧
        prog.get? 14 = some (.layerApp 3 natModel.layer3 13) ∧
        prog.get? 15 = some (.layerApp 4 natModel.layer4 14) ∧
        prog.get? 6 = some (.viewFlat 1) ∧
        prog.get? 16 = some (.convApp natModel.conv1 6) ∧
        prog.get? 17 = some (.bnApp natModel.bn1 16) ∧
        prog.get? 18 = some (.reluApp 17) ∧
        prog.get? 19 = some (.maxpoolApp 18) ∧
        prog.get? 20 = some (.layerApp 1 natModel.layer1 19) ∧
        prog.get? 21 = some (.layerApp 2 natModel.layer2 20) ∧
        prog.get? 22 = some (.layerApp 3 natModel.layer3 21) ∧
        prog.get? 23 = some (.layerApp 4 natModel.layer4 22)) :=
  ⟨Or.inl rfl, gru_invoked_twice_per_stage_swapped Nat natModel 0 (Or.inl rfl)⟩

/-- C8: the four per-stage attention heads, in both the mask-conditioned
(`conv_z_refk`) and mask-free (`conv_z1_refk`) variants, are configured
with image sizes 128, 64, 32, 16 and patch sizes 16, 8, 4, 2 respectively,
so every head splits its configured image size into exactly 64 patches, and
each head outputs a fixed 32-dimensional embedding per batch item. -/
theorem attention_head_patch_schedule :
    (conv_z1_ref1Cfg.imageSize = 128 ∧ conv_z1_ref1Cfg.patchSize = 16 ∧
     conv_z_ref1Cfg.imageSize = 128 ∧ conv_z_ref1Cfg.patchSize = 16) ∧
    (conv_z1_ref2Cfg.imageSize = 64 ∧ conv_z1_ref2Cfg.patchSize = 8 ∧
     conv_z_ref2Cfg.imageSize = 64 ∧ conv_z_ref2Cfg.patchSize = 8) ∧
    (conv_z1_ref3Cfg.imageSize = 32 ∧ conv_z1_ref3Cfg.patchSize = 4 ∧
     conv_z_ref3Cfg.imageSize = 32 ∧ conv_z_ref3Cfg.patchSize = 4) ∧
    (conv_z1_ref4Cfg.imageSize = 16 ∧ conv_z1_ref4Cfg.patchSize = 2 ∧
     conv_z_ref4Cfg.imageSize = 16 ∧ conv_z_ref4Cfg.patchSize = 2) ∧
    (∀ cfg ∈ [conv_z1_ref1Cfg, conv_z1_ref2Cfg, conv_z1_ref3Cfg, conv_z1_ref4Cfg,
              conv_z_ref1Cfg, conv_z_ref2Cfg, conv_z_ref3Cfg, conv_z_ref4Cfg],
      numPatches cfg = 64 ∧ cfg.numClasses = 32) ∧
    (∀ (n : Nat),
      ∀ cfg ∈ [conv_z1_ref1Cfg, conv_z1_ref2Cfg, conv_z1_ref3Cfg, conv_z1_ref4Cfg,
               conv_z_ref1Cfg, conv_z_ref2Cfg, conv_z_ref3Cfg, conv_z_ref4Cfg],
      vitShape cfg [n, 32, cfg.imageSize, cfg.imageSize] = some [n, 32]) := by
  refine ⟨by decide, by decide, by decide, by decide, by decide, ?_⟩
  intro n cfg hcfg
  simp only [List.mem_cons, List.not_mem_nil, or_false] at hcfg
  rcases hcfg with rfl | rfl | rfl | rfl | rfl | rfl | rfl | rfl <;>
    simp [vitShape, conv_z1_ref1Cfg, conv_z1_ref2Cfg, conv_z1_ref3Cfg,
      conv_z1_ref4Cfg, conv_z_ref1Cfg, conv_z_ref2Cfg, conv_z_ref3Cfg,
      conv_z_ref4Cfg]

/-- C9: for every input quadruple of stream and mask tensors, calling
`forward` with mode selector 0 and with mode selector 1 execute the
identical computation (equal traces) and return equal results (equal output
shapes): the two handled modes are indistinguishable. -/
theorem mode0_mode1_equivalent (α : Type) (m : Model α) (net : ResNetSh)
    (v10 v05 m10 m05 : Shape) :
    forwardTrace m 0 = forwardTrace m 1 ∧
    forwardShape net v10 v05 m10 m05 0 = forwardShape net v10 v05 m10 m05 1 := by
  constructor
  · simp only [forwardTrace]
    rw [if_pos (Or.inl trivial), if_pos (Or.inr trivial)]
  · simp only [forwardShape]
    rw [if_pos (Or.inl trivial), if_pos (Or.inr trivial)]

/-- C10: the computation `forward` performs (and hence the scalar quality
score it returns) does not depend on the parameters of the
`avgpool_blind`, `quality_blind1` and `quality_blind2` modules: for any two
models whose parameters differ only in those three modules and any mode
selector, the forward trace is identical — those modules are constructed
but never used in the forward pass. -/
theorem blind_modules_unused (α : Type) (m : Model α) (a b c : α)
    (modeIdx : Int) :
    forwardTrace
        { m with avgpool_blind := a, quality_blind1 := b, quality_blind2 := c }
        modeIdx =
      forwardTrace m modeIdx := rfl

/-! Construction-time validation (C3). -/

lemma basicBlockInit_error (inplanes planes stride : Nat) (hasDown : Bool)
    (groups baseWidth dilation : Nat) (h : groups ≠ 1 ∨ baseWidth ≠ 64) :
    basicBlockInit inplanes planes stride hasDown groups baseWidth dilation =
      .error (.valueErr "BasicBlock only supports groups=1 and base_width=64") := by
  simp only [basicBlockInit]
  rw [if_pos h]

lemma makeLayerChecked_error (groups baseWidth planes blocks stride : Nat)
    (dilate : Bool) (st : MkState) (h : groups ≠ 1 ∨ baseWidth ≠ 64) :
    makeLayerChecked groups baseWidth planes blocks stride dilate st =
      .error (.valueErr "BasicBlock only supports groups=1 and base_width=64") := by
  simp only [makeLayerChecked]
  rw [basicBlockInit_error _ _ _ _ _ _ _ h]
  rfl

lemma resnetInitBasic_error (groups baseWidth l1 l2 l3 l4 : Nat) (d1 d2 d3 : Bool)
    (h : groups ≠ 1 ∨ baseWidth ≠ 64) :
    resnetInitBasic groups baseWidth l1 l2 l3 l4 (some [d1, d2, d3]) =
      .error (.valueErr "BasicBlock only supports groups=1 and base_width=64") := by
  simp only [resnetInitBasic, Option.getD_some]
  rw [makeLayerChecked_error _ _ _ _ _ _ _ h]
  rfl

/-- C3: constructing the backbone with the basic block variant raises a
configuration error at model-build time — before any forward computation —
whenever grouped-convolution parameters are requested (groups other than 1,
or base width other than 64) or an unsupported dilation value (greater
than 1, requested through any `replace_stride_with_dilation` flag, which
makes the affected layer's blocks receive a dilation of 2 or more) is
requested; shown for the `[2, 2, 2, 2]` layer configuration of `resnet18`. -/
theorem basicblock_misconfig_raises (groups baseWidth : Nat) (d1 d2 d3 : Bool)
    (h : groups ≠ 1 ∨ baseWidth ≠ 64 ∨ d1 = true ∨ d2 = true ∨ d3 = true) :
    raised (resnetInitBasic groups baseWidth 2 2 2 2 (some [d1, d2, d3])) = true := by
  by_cases hg : groups = 1
  · by_cases hb : baseWidth = 64
    · subst hg hb
      rcases h with h | h | h | h | h
      · exact absurd rfl h
      · exact absurd rfl h
      · subst h; cases d2 <;> cases d3 <;> decide
      · subst h; cases d1 <;> cases d3 <;> decide
      · subst h; cases d1 <;> cases d2 <;> decide
    · rw [resnetInitBasic_error _ _ _ _ _ _ _ _ _ (Or.inr hb)]
      rfl
  · rw [resnetInitBasic_error _ _ _ _ _ _ _ _ _ (Or.inl hg)]
    rfl

/-- Witness for C3: groups = 2 with the basic block raises at build time. -/
theorem basicblock_misconfig_raises_witness :
    ((2 : Nat) ≠ 1 ∨ (64 : Nat) ≠ 64 ∨ false = true ∨ false = true ∨ false = true) ∧
      raised (resnetInitBasic 2 64 2 2 2 2 (some [false, false, false])) = true :=
  ⟨Or.inl (by decide),
    basicblock_misconfig_raises 2 64 false false false (Or.inl (by decide))⟩

/-! Partial pretrained-weight loading (C5). -/

lemma lookup_filter_none {V : Type} (pre : List (String × V))
    (q : String × V → Bool) (k : String) (h : lookup pre k = none) :
    lookup (pre.filter q) k = none := by
  induction pre with
  | nil => rfl
  | cons p rest ih =>
      simp only [lookup] at h
      by_cases hk : p.1 = k
      · rw [if_pos hk] at h
        cases h
      · rw [if_neg hk] at h
        rw [List.filter_cons]
        cases hq : q p
        · simp only [Bool.false_eq_true, if_false]
          exact ih h
        · simp only [if_true]
          simp only [lookup]
          rw [if_neg hk]
          exact ih h

lemma updEntry_key {V : Type} (upd : List (String × V)) (p : String × V) :
    (updEntry upd p).1 = p.1 := by
  unfold updEntry
  cases lookup upd p.1 <;> rfl

lemma updEntry_of_none {V : Type} (upd : List (String × V)) (p : String × V)
    (h : lookup upd p.1 = none) : updEntry upd p = p := by
  unfold updEntry
  rw [h]

lemma lookup_append_right_none {V : Type} (l1 l2 : List (String × V)) (k : String)
    (h : lookup l2 k = none) : lookup (l1 ++ l2) k = lookup l1 k := by
  induction l1 with
  | nil => simpa using h
  | cons p rest ih =>
      simp only [List.cons_append, lookup]
      by_cases hk : p.1 = k
      · rw [if_pos hk, if_pos hk]
      · rw [if_neg hk, if_neg hk]
        exact ih

lemma lookup_map_updEntry_notin {V : Type} (d upd : List (String × V)) (k : String)
    (h : lookup upd k = none) :
    lookup (d.map (updEntry upd)) k = lookup d k := by
  induction d with
  | nil => rfl
  | cons p rest ih =>
      simp only [List.map_cons, lookup, updEntry_key]
      by_cases hk : p.1 = k
      · have hupd : lookup upd p.1 = none := by rw [hk]; exact h
        rw [if_pos hk, if_pos hk, updEntry_of_none upd p hupd]
      · rw [if_neg hk, if_neg hk]
        exact ih

lemma lookup_dictUpdate_notin {V : Type} (d upd : List (String × V)) (k : String)
    (h : lookup upd k = none) :
    lookup (dictUpdate d upd) k = lookup d k := by
  unfold dictUpdate
  rw [lookup_append_right_none _ _ k (lookup_filter_none upd _ k h)]
  exact lookup_map_updEntry_notin d upd k h

lemma dictUpdate_keys {V : Type} (d upd : List (String × V))
    (hupd : ∀ p ∈ upd, (lookup d p.1).isSome = true) :
    (dictUpdate d upd).map Prod.fst = d.map Prod.fst := by
  have hfilter : upd.filter (fun p => (lookup d p.1).isNone) = [] := by
    rw [List.filter_eq_nil_iff]
    intro p hp
    have h2 := hupd p hp
    cases hlk : lookup d p.1 with
    | none => rw [hlk] at h2; cases h2
    | some v => simp [hlk]
  rw [dictUpdate, hfilter, List.append_nil, List.map_map]
  exact List.map_congr_left (fun p _ => updEntry_key upd p)

/-- C5: loading pretrained weights (`pretrained=True` in `resnet18` and
`resnet50`) filters the downloaded key-value mapping to only keys present
in the current model's state dict before loading: extra unknown keys in the
mapping are silently dropped (the loaded dict's keys are exactly the
model's keys, so the strict `load_state_dict` cannot raise), and every
model parameter whose key is absent from the mapping keeps its prior
value. -/
theorem pretrained_partial_load (V : Type) (modelDict pre : List (String × V))
    (k : String) (hk : lookup pre k = none) :
    (loadPretrained modelDict pre).map Prod.fst = modelDict.map Prod.fst ∧
    lookup (loadPretrained modelDict pre) k = lookup modelDict k ∧
    (loadPretrainedR50 modelDict pre).map Prod.fst = modelDict.map Prod.fst ∧
    lookup (loadPretrainedR50 modelDict pre) k = lookup modelDict k := by
  refine ⟨?_, ?_, ?_, ?_⟩
  · apply dictUpdate_keys
    intro p hp
    exact (List.mem_filter.mp hp).2
  · exact lookup_dictUpdate_notin _ _ _ (lookup_filter_none pre _ k hk)
  · apply dictUpdate_keys
    intro p hp
    have h2 := (List.mem_filter.mp hp).2
    exact (Bool.and_eq_true _ _).mp h2 |>.1
  · exact lookup_dictUpdate_notin _ _ _ (lookup_filter_none pre _ k hk)

/-- Witness for C5: a model dict with two parameters, a pretrained mapping
holding one of them plus an unknown key; the untouched parameter keeps its
value 2, the key set is unchanged, for both load variants. -/
theorem pretrained_partial_load_witness :
    lookup [("conv1.weight", (10 : Nat)), ("extra.key", 99)] "bn1.weight" = none ∧
      ((loadPretrained [("conv1.weight", 1), ("bn1.weight", 2)]
          [("conv1.weight", (10 : Nat)), ("extra.key", 99)]).map Prod.fst =
        ([("conv1.weight", 1), ("bn1.weight", 2)]).map Prod.fst ∧
      lookup (loadPretrained [("conv1.weight", 1), ("bn1.weight", 2)]
          [("conv1.weight", (10 : Nat)), ("extra.key", 99)]) "bn1.weight" =
        lookup [("conv1.weight", 1), ("bn1.weight", 2)] "bn1.weight" ∧
      (loadPretrainedR50 [("conv1.weight", 1), ("bn1.weight", 2)]
          [("conv1.weight", (10 : Nat)), ("extra.key", 99)]).map Prod.fst =
        ([("conv1.weight", 1), ("bn1.weight", 2)]).map Prod.fst ∧
      lookup (loadPretrainedR50 [("conv1.weight", 1), ("bn1.weight", 2)]
          [("conv1.weight", (10 : Nat)), ("extra.key", 99)]) "bn1.weight" =
        lookup [("conv1.weight", 1), ("bn1.weight", 2)] "bn1.weight") :=
  ⟨by decide,
    pretrained_partial_load Nat [("conv1.weight", 1), ("bn1.weight", 2)]
      [("conv1.weight", 10), ("extra.key", 99)] "bn1.weight" (by decide)⟩

end MSPCQE
